import Mathlib

/-!
Verification of the signing and verifying utility in
src/publickey/signature/node/signature.js.

The file embeds the program shallowly: the CLI control flow (file reads in
callback order, the creation of the signing or verifying primitive, the
artifact write, the process exit) is translated directly from the source,
while the cryptographic primitive and the base64 transform live inside
Node's crypto and Buffer modules, outside src/, and are modelled from the
spec (textbook RSA over an abstract digest parameter, and a standard strict
base64 codec).  Bytes are naturals below 256; exit codes are integers.
-/

namespace CryptoInterop

/-- Public: the single, agreed signature algorithm among participants
(signature.js line 15). -/
def SIGNATURE_ALGORITHM : String := "RSA-SHA256"

/-- Modelled from the spec: the PEM-decoded RSA private key material handed
to the Node crypto signing primitive (external to src/), reduced to the
modulus and the private exponent it denotes. -/
structure RSAPrivateKey where
  n : Nat
  d : Nat
  deriving DecidableEq

/-- Modelled from the spec: the PEM-decoded RSA public key or certificate
handed to the Node crypto verifying primitive (external to src/), reduced to
the modulus and the public exponent it denotes. -/
structure RSAPublicKey where
  n : Nat
  e : Nat
  deriving DecidableEq

/-- Modelled from the spec: a valid RSA key pair (key generation is outside
the repository).  The two halves share the modulus, the modulus is a product
of two distinct primes, and the exponents are inverse modulo the totient. -/
def validRSAKeyPair (p q : Nat) (priv : RSAPrivateKey) (pub : RSAPublicKey) : Prop :=
  p.Prime ∧ q.Prime ∧ p ≠ q ∧ priv.n = p * q ∧ pub.n = priv.n ∧
    (pub.e * priv.d) % ((p - 1) * (q - 1)) = 1

/-- Modelled from the spec: crypto.createSign(SIGNATURE_ALGORITHM) followed
by update(data) and sign(privateKey) (signature.js lines 82-84).  The digest
step of the RSA-SHA256 scheme is internal to Node crypto and external to
src/, so the digest is an abstract parameter; the asymmetric step raises the
digest to the private exponent modulo the key modulus. -/
def rsaSign (hash : List Nat → Nat) (data : List Nat) (priv : RSAPrivateKey) : Nat :=
  hash data ^ priv.d % priv.n

/-- Modelled from the spec: crypto.createVerify(SIGNATURE_ALGORITHM) followed
by update(data) and verify(publicKey, signature) (signature.js lines
135-137): the signature is raised to the public exponent modulo the key
modulus and compared against the freshly computed digest of data. -/
def rsaVerify (hash : List Nat → Nat) (data : List Nat) (sig : Nat)
    (pub : RSAPublicKey) : Bool :=
  decide (sig ^ pub.e % pub.n = hash data)

/-- Big-endian value of a byte list, as the signing primitive interprets the
raw signature buffer. -/
def bytesToNatBE (l : List Nat) : Nat :=
  l.foldl (fun a b => a * 256 + b) 0

/-- Big-endian byte rendering of a value into a buffer of the given length
(the raw signature buffer returned by the signing primitive). -/
def natToBytesBE : Nat → Nat → List Nat
  | 0, _ => []
  | len + 1, v => natToBytesBE len (v / 256) ++ [v % 256]

/-- Length in bytes of a modulus, computed with the modulus itself as fuel;
the raw signature buffer produced by the signing primitive has exactly this
length. -/
def natBytesLen : Nat → Nat → Nat
  | 0, _ => 0
  | fuel + 1, m => if m < 256 then 1 else natBytesLen fuel (m / 256) + 1

/-- Byte length of the key modulus. -/
def modulusByteLength (m : Nat) : Nat :=
  natBytesLen m m

/-- Raw signature buffer: the signing result rendered on as many bytes as
the key modulus occupies (signature.js line 84). -/
def rawSignatureBytes (priv : RSAPrivateKey) (sig : Nat) : List Nat :=
  natToBytesBE (modulusByteLength priv.n) sig

/-- Modelled from the spec: the base64 digit table used by
Buffer.toString applied with base64 (signature.js line 90), as ASCII codes. -/
def sextetToAscii (s : Nat) : Nat :=
  if s < 26 then 65 + s
  else if s < 52 then 97 + (s - 26)
  else if s < 62 then 48 + (s - 52)
  else if s = 62 then 43
  else 47

/-- Modelled from the spec: the inverse base64 digit table used when the
verifying primitive interprets the artifact text as base64 (signature.js
line 137); codes outside the table are rejected. -/
def asciiToSextet (c : Nat) : Option Nat :=
  if 65 ≤ c ∧ c ≤ 90 then some (c - 65)
  else if 97 ≤ c ∧ c ≤ 122 then some (c - 97 + 26)
  else if 48 ≤ c ∧ c ≤ 57 then some (c - 48 + 52)
  else if c = 43 then some 62
  else if c = 47 then some 63
  else none

/-- Modelled from the spec: ArtifactCodec.encode, the base64 text rendering
of the raw signature bytes (signature.js line 90).  Three input bytes become
four base64 digits; a final group of one or two bytes is padded with the
code 61, the equals sign. -/
def encodeB64 : List Nat → List Nat
  | [] => []
  | [a] => [sextetToAscii (a / 4), sextetToAscii (a % 4 * 16), 61, 61]
  | [a, b] =>
      [sextetToAscii (a / 4), sextetToAscii (a % 4 * 16 + b / 16),
        sextetToAscii (b % 16 * 4), 61]
  | a :: b :: c :: rest =>
      sextetToAscii (a / 4) :: sextetToAscii (a % 4 * 16 + b / 16) ::
        sextetToAscii (b % 16 * 4 + c / 64) :: sextetToAscii (c % 64) ::
          encodeB64 rest

/-- Modelled from the spec: ArtifactCodec.decode, the base64 interpretation
applied to the artifact text during verification (signature.js line 137).
Invalid digits, misplaced padding, non-canonical padding bits and texts
whose length is not a multiple of four are rejected with none, the
CodecError of the spec. -/
def decodeB64 : List Nat → Option (List Nat)
  | [] => some []
  | c1 :: c2 :: c3 :: c4 :: rest =>
      (asciiToSextet c1).bind fun s1 =>
        (asciiToSextet c2).bind fun s2 =>
          if c3 = 61 then
            if c4 = 61 ∧ rest = [] ∧ s2 % 16 = 0 then
              some [s1 * 4 + s2 / 16]
            else none
          else
            (asciiToSextet c3).bind fun s3 =>
              if c4 = 61 then
                if rest = [] ∧ s3 % 4 = 0 then
                  some [s1 * 4 + s2 / 16, s2 % 16 * 16 + s3 / 4]
                else none
              else
                (asciiToSextet c4).bind fun s4 =>
                  (decodeB64 rest).map fun tail =>
                    (s1 * 4 + s2 / 16) :: (s2 % 16 * 16 + s3 / 4) ::
                      (s3 % 4 * 64 + s4) :: tail
  | _ => none

/-- Core verification step of the verify path (signature.js lines 135-137):
the artifact text is interpreted as base64 and the resulting raw signature
is checked against the data under the public key; text that is not valid
base64 verifies as false, never as a fault. -/
def verifierVerify (hash : List Nat → Nat) (data sigText : List Nat)
    (pub : RSAPublicKey) : Bool :=
  match decodeB64 sigText with
  | none => false
  | some sigBytes => rsaVerify hash data (bytesToNatBE sigBytes) pub

/-- Outcome of one call of the verifying primitive: a boolean verdict, or
the typed error thrown for unparseable key material.  No other outcome
exists; in particular no unhandled fault. -/
inductive VerifyOutcome where
  | ok : Bool → VerifyOutcome
  | keyParseError : VerifyOutcome
  deriving DecidableEq

/-- One call of the verifying primitive including key parsing, which Node
crypto performs inside verify and which throws the typed KeyParseError on
malformed key material (modelled by the parsePub parameter). -/
def verifierVerifyOutcome (hash : List Nat → Nat) (data sigText keyBytes : List Nat)
    (parsePub : List Nat → Option RSAPublicKey) : VerifyOutcome :=
  match parsePub keyBytes with
  | none => VerifyOutcome.keyParseError
  | some pub => VerifyOutcome.ok (verifierVerify hash data sigText pub)

/-- Observable steps of one CLI invocation: file reads in callback order,
creation of the signing or verifying primitive with its algorithm argument,
the artifact write with its exact contents, and process exit with its
code. -/
inductive Event where
  | readFile : String → Event
  | createSign : String → Event
  | createVerify : String → Event
  | writeFile : String → List Nat → Event
  | exit : Int → Event
  deriving DecidableEq

/-- Trace of sign(dataPath, privateKeyPath, signaturePath) (signature.js
lines 67-100).  fs models fs.readFile, none being a read error handled by
handleError with exit code -1; parsePriv models the key parsing done inside
signer.sign, which throws on bad key material, terminating the process with
code 1; the fs.writeFile error is ignored by its callback at lines 93-95,
so a completed signing run always ends with exit code 0. -/
def signRun (fs : String → Option (List Nat))
    (parsePriv : List Nat → Option RSAPrivateKey) (hash : List Nat → Nat)
    (dataPath privateKeyPath signaturePath : String) : List Event :=
  Event.readFile dataPath ::
    match fs dataPath with
    | none => [Event.exit (-1)]
    | some data =>
      Event.readFile privateKeyPath ::
        match fs privateKeyPath with
        | none => [Event.exit (-1)]
        | some privateKey =>
          Event.createSign SIGNATURE_ALGORITHM ::
            match parsePriv privateKey with
            | none => [Event.exit 1]
            | some priv =>
              [Event.writeFile signaturePath
                  (encodeB64 (rawSignatureBytes priv (rsaSign hash data priv))),
                Event.exit 0]

/-- Exit status of the sign CLI invocation (signature.js lines 67-100).
The fsWrite parameter models fs.writeFile and reports whether the artifact
write succeeded; the callback at lines 93-95 drops its error argument, so
the result of fsWrite is computed and then discarded and the exit status is
0 whenever signing itself completed. -/
def signExitCode (fs : String → Option (List Nat))
    (fsWrite : String → List Nat → Bool)
    (parsePriv : List Nat → Option RSAPrivateKey) (hash : List Nat → Nat)
    (dataPath privateKeyPath signaturePath : String) : Int :=
  match fs dataPath with
  | none => -1
  | some data =>
    match fs privateKeyPath with
    | none => -1
    | some privateKey =>
      match parsePriv privateKey with
      | none => 1
      | some priv =>
        let artifact := encodeB64 (rawSignatureBytes priv (rsaSign hash data priv))
        let _ := fsWrite signaturePath artifact
        0

/-- Trace of verify(dataPath, signaturePath, publicKeyPath) (signature.js
lines 115-147).  Read errors exit with code -1 through handleError; the
verifying primitive is created with the shared algorithm before the verify
call, which throws on malformed key material (exit code 1); otherwise the
boolean verdict alone selects the exit code at line 140. -/
def verifyRun (fs : String → Option (List Nat))
    (parsePub : List Nat → Option RSAPublicKey) (hash : List Nat → Nat)
    (dataPath signaturePath publicKeyPath : String) : List Event :=
  Event.readFile dataPath ::
    match fs dataPath with
    | none => [Event.exit (-1)]
    | some data =>
      Event.readFile signaturePath ::
        match fs signaturePath with
        | none => [Event.exit (-1)]
        | some sigText =>
          Event.readFile publicKeyPath ::
            match fs publicKeyPath with
            | none => [Event.exit (-1)]
            | some keyBytes =>
              Event.createVerify SIGNATURE_ALGORITHM ::
                match parsePub keyBytes with
                | none => [Event.exit 1]
                | some pub =>
                  [Event.exit (if verifierVerify hash data sigText pub then 0 else -1)]

/-- Exit status of the verify CLI invocation (signature.js lines 115-147):
the value passed to process.exit at line 140, or the error exits of
handleError and of the throwing verify call. -/
def verifyExitCode (fs : String → Option (List Nat))
    (parsePub : List Nat → Option RSAPublicKey) (hash : List Nat → Nat)
    (dataPath signaturePath publicKeyPath : String) : Int :=
  match fs dataPath with
  | none => -1
  | some data =>
    match fs signaturePath with
    | none => -1
    | some sigText =>
      match fs publicKeyPath with
      | none => -1
      | some keyBytes =>
        match parsePub keyBytes with
        | none => 1
        | some pub => if verifierVerify hash data sigText pub then 0 else -1

/-- Strict ordering of two events inside a trace: the first occurs, and the
second occurs somewhere after it. -/
def occursBefore (a b : Event) (l : List Event) : Prop :=
  ∃ l1 l2 l3, l = l1 ++ a :: l2 ++ b :: l3

/-- Demonstration digest with values below 55, used to instantiate the
abstract digest parameter on concrete inputs. -/
def hashDemo (l : List Nat) : Nat :=
  bytesToNatBE l % 55

/-- Demonstration file system holding a data file and a key file. -/
def fsDemo (p : String) : Option (List Nat) :=
  if p = "d" then some [104, 105]
  else if p = "k" then some [7] else none

/-- Demonstration private key parser returning the key with modulus 55 and
private exponent 27. -/
def parsePrivDemo (_ : List Nat) : Option RSAPrivateKey :=
  some ⟨55, 27⟩

/-- Demonstration public key parser returning the key with modulus 55 and
public exponent 3. -/
def parsePubDemo (_ : List Nat) : Option RSAPublicKey :=
  some ⟨55, 3⟩

/-- Fermat variant: modulo a prime p, raising to the power 1 + k (p - 1)
fixes every residue. -/
theorem pow_one_add_mul_prime_sub_one (p : Nat) (hp : p.Prime) (m k : Nat) :
    m ^ (1 + k * (p - 1)) ≡ m [MOD p] := by
  haveI : Fact p.Prime := ⟨hp⟩
  have h : ((m : ZMod p)) ^ (1 + k * (p - 1)) = (m : ZMod p) := by
    by_cases hm : (m : ZMod p) = 0
    · rw [hm, zero_pow]
      omega
    · rw [pow_add, pow_one, mul_comm k (p - 1), pow_mul,
        ZMod.pow_card_sub_one_eq_one hm, one_pow, mul_one]
  have h2 : ((m ^ (1 + k * (p - 1)) : Nat) : ZMod p) = ((m : Nat) : ZMod p) := by
    push_cast
    exact h
  exact (ZMod.natCast_eq_natCast_iff _ _ _).mp h2

/-- RSA core identity: for distinct primes p and q and exponents that are
inverse modulo the totient, raising to the power e * d fixes every residue
modulo p * q. -/
theorem rsa_pow_decrypt (p q e d : Nat) (hp : p.Prime) (hq : q.Prime)
    (hpq : p ≠ q) (he : (e * d) % ((p - 1) * (q - 1)) = 1) (m : Nat) :
    m ^ (e * d) ≡ m [MOD p * q] := by
  obtain ⟨c, hc⟩ : ∃ c, e * d = 1 + (p - 1) * (q - 1) * c := by
    refine ⟨e * d / ((p - 1) * (q - 1)), ?_⟩
    conv_lhs => rw [← Nat.div_add_mod (e * d) ((p - 1) * (q - 1)), he]
    exact Nat.add_comm _ _
  have h1 : m ^ (e * d) ≡ m [MOD p] := by
    have hrw : e * d = 1 + (q - 1) * c * (p - 1) := by rw [hc]; ring
    rw [hrw]
    exact pow_one_add_mul_prime_sub_one p hp m ((q - 1) * c)
  have h2 : m ^ (e * d) ≡ m [MOD q] := by
    have hrw : e * d = 1 + (p - 1) * c * (q - 1) := by rw [hc]; ring
    rw [hrw]
    exact pow_one_add_mul_prime_sub_one q hq m ((p - 1) * c)
  exact (Nat.modEq_and_modEq_iff_modEq_mul
    ((Nat.coprime_primes hp hq).mpr hpq)).mp ⟨h1, h2⟩

/-- The modulus of a valid key pair is positive, on both halves. -/
theorem validRSAKeyPair.n_pos (p q : Nat) (priv : RSAPrivateKey)
    (pub : RSAPublicKey) (hkp : validRSAKeyPair p q priv pub) : 0 < pub.n := by
  obtain ⟨hp, hq, _, hn, hnn, _⟩ := hkp
  rw [hnn, hn]
  exact Nat.mul_pos hp.pos hq.pos

/-- Decryption identity transported to a valid key pair: raising to
pub.e * priv.d fixes every residue modulo the shared modulus. -/
theorem validRSAKeyPair.pow_decrypt (p q : Nat) (priv : RSAPrivateKey)
    (pub : RSAPublicKey) (hkp : validRSAKeyPair p q priv pub) (m : Nat) :
    m ^ (pub.e * priv.d) ≡ m [MOD pub.n] := by
  obtain ⟨hp, hq, hpq, hn, hnn, he⟩ := hkp
  rw [hnn, hn]
  exact rsa_pow_decrypt p q pub.e priv.d hp hq hpq he m

/-- The signature of any data under a valid key pair verifies: core of the
sign-then-verify guarantee. -/
theorem rsaSign_verifies (hash : List Nat → Nat) (p q : Nat)
    (priv : RSAPrivateKey) (pub : RSAPublicKey)
    (hkp : validRSAKeyPair p q priv pub) (data : List Nat)
    (hh : hash data < pub.n) :
    rsaVerify hash data (rsaSign hash data priv) pub = true := by
  have hnn : pub.n = priv.n := hkp.2.2.2.2.1
  have hmain : (hash data ^ priv.d % priv.n) ^ pub.e % pub.n = hash data := by
    have c1 : hash data ^ priv.d % priv.n ≡ hash data ^ priv.d [MOD pub.n] := by
      rw [hnn]
      exact Nat.mod_modEq _ _
    have c2 : (hash data ^ priv.d % priv.n) ^ pub.e ≡ hash data [MOD pub.n] := by
      calc (hash data ^ priv.d % priv.n) ^ pub.e
          ≡ (hash data ^ priv.d) ^ pub.e [MOD pub.n] := c1.pow _
        _ = hash data ^ (pub.e * priv.d) := by rw [← pow_mul, mul_comm]
        _ ≡ hash data [MOD pub.n] := validRSAKeyPair.pow_decrypt p q priv pub hkp _
    have h3 : (hash data ^ priv.d % priv.n) ^ pub.e % pub.n
        = hash data % pub.n := c2
    rwa [Nat.mod_eq_of_lt hh] at h3
  simp [rsaVerify, rsaSign, hmain]

/-- Any value that verifies against data is congruent to the honest
signature of data modulo the shared modulus. -/
theorem rsaVerify_true_modEq (hash : List Nat → Nat) (p q : Nat)
    (priv : RSAPrivateKey) (pub : RSAPublicKey)
    (hkp : validRSAKeyPair p q priv pub) (data : List Nat)
    (hh : hash data < pub.n) (s : Nat)
    (hv : rsaVerify hash data s pub = true) :
    s ≡ rsaSign hash data priv [MOD pub.n] := by
  have hnn : pub.n = priv.n := hkp.2.2.2.2.1
  have hv' : s ^ pub.e % pub.n = hash data := by
    simpa [rsaVerify] using hv
  have hmod : s ^ pub.e ≡ hash data [MOD pub.n] := by
    show s ^ pub.e % pub.n = hash data % pub.n
    rw [hv', Nat.mod_eq_of_lt hh]
  calc s ≡ s ^ (pub.e * priv.d) [MOD pub.n] :=
        (validRSAKeyPair.pow_decrypt p q priv pub hkp s).symm
    _ = (s ^ pub.e) ^ priv.d := by rw [pow_mul]
    _ ≡ hash data ^ priv.d [MOD pub.n] := hmod.pow _
    _ ≡ hash data ^ priv.d % priv.n [MOD pub.n] := by
        rw [hnn]
        exact (Nat.mod_modEq _ _).symm
    _ = rsaSign hash data priv := rfl

/-- Characterization of verification below the modulus: exactly the honest
signature verifies. -/
theorem rsaVerify_true_iff (hash : List Nat → Nat) (p q : Nat)
    (priv : RSAPrivateKey) (pub : RSAPublicKey)
    (hkp : validRSAKeyPair p q priv pub) (data : List Nat)
    (hh : hash data < pub.n) (s : Nat) (hs : s < pub.n) :
    rsaVerify hash data s pub = true ↔ s = rsaSign hash data priv := by
  constructor
  · intro hv
    have hmod := rsaVerify_true_modEq hash p q priv pub hkp data hh s hv
    have hsig : rsaSign hash data priv < pub.n := by
      have hpos := validRSAKeyPair.n_pos p q priv pub hkp
      rw [hkp.2.2.2.2.1] at hpos ⊢
      show hash data ^ priv.d % priv.n < priv.n
      exact Nat.mod_lt _ hpos
    have h4 : s % pub.n = rsaSign hash data priv % pub.n := hmod
    rwa [Nat.mod_eq_of_lt hs, Nat.mod_eq_of_lt hsig] at h4
  · intro hs'
    rw [hs']
    exact rsaSign_verifies hash p q priv pub hkp data hh

/-- An odd number greater than one divides no power of two. -/
theorem odd_not_dvd_two_pow (n j : Nat) (hodd : Odd n) (hgt : 1 < n) :
    ¬ n ∣ 2 ^ j := by
  intro hdvd
  have h2 : ¬ (2 ∣ n) := by
    rintro ⟨d, hd⟩
    obtain ⟨c, hc⟩ := hodd
    omega
  have hcop : Nat.Coprime n 2 := (Nat.prime_two.coprime_iff_not_dvd.mpr h2).symm
  have hcop' : Nat.Coprime n (2 ^ j) := hcop.pow_right j
  have := hcop'.eq_one_of_dvd hdvd
  omega

/-- The digit tables are inverse on the 64 base64 digits. -/
theorem asciiToSextet_sextetToAscii :
    ∀ s, s < 64 → asciiToSextet (sextetToAscii s) = some s := by
  decide

/-- No base64 digit is the padding code 61. -/
theorem sextetToAscii_ne_61 : ∀ s, s < 64 → sextetToAscii s ≠ 61 := by
  decide

/-- Recursion principle following the three-byte grouping of the base64
encoder. -/
theorem list_chunk3_induction (motive : List Nat → Prop) (h0 : motive [])
    (h1 : ∀ a, motive [a]) (h2 : ∀ a b, motive [a, b])
    (h3 : ∀ a b c rest, motive rest → motive (a :: b :: c :: rest)) :
    ∀ l, motive l
  | [] => h0
  | [a] => h1 a
  | [a, b] => h2 a b
  | a :: b :: c :: rest =>
      h3 a b c rest (list_chunk3_induction motive h0 h1 h2 h3 rest)

/-- Round trip of the artifact codec on byte sequences. -/
theorem decodeB64_encodeB64 (s : List Nat) (hs : ∀ b ∈ s, b < 256) :
    decodeB64 (encodeB64 s) = some s := by
  induction s using list_chunk3_induction with
  | h0 => rfl
  | h1 a =>
    have ha : a < 256 := hs a (by simp)
    have e1 := asciiToSextet_sextetToAscii (a / 4) (by omega)
    have e2 := asciiToSextet_sextetToAscii (a % 4 * 16) (by omega)
    simp [encodeB64, decodeB64, e1, e2, Nat.mul_mod_left]
    omega
  | h2 a b =>
    have ha : a < 256 := hs a (by simp)
    have hb : b < 256 := hs b (by simp)
    have e1 := asciiToSextet_sextetToAscii (a / 4) (by omega)
    have e2 := asciiToSextet_sextetToAscii (a % 4 * 16 + b / 16) (by omega)
    have e3 := asciiToSextet_sextetToAscii (b % 16 * 4) (by omega)
    have n3 := sextetToAscii_ne_61 (b % 16 * 4) (by omega)
    simp [encodeB64, decodeB64, e1, e2, e3, n3, Nat.mul_mod_left]
    omega
  | h3 a b c rest ih =>
    have ha : a < 256 := hs a (by simp)
    have hb : b < 256 := hs b (by simp)
    have hc : c < 256 := hs c (by simp)
    have e1 := asciiToSextet_sextetToAscii (a / 4) (by omega)
    have e2 := asciiToSextet_sextetToAscii (a % 4 * 16 + b / 16) (by omega)
    have e3 := asciiToSextet_sextetToAscii (b % 16 * 4 + c / 64) (by omega)
    have e4 := asciiToSextet_sextetToAscii (c % 64) (by omega)
    have n3 := sextetToAscii_ne_61 (b % 16 * 4 + c / 64) (by omega)
    have n4 := sextetToAscii_ne_61 (c % 64) (by omega)
    have ih' := ih (fun x hx => hs x (by simp [hx]))
    simp [encodeB64, decodeB64, e1, e2, e3, e4, n3, n4, ih']
    omega

/-- Demonstration key pair with modulus 55 = 5 * 11, public exponent 3 and
private exponent 27. -/
theorem demoKeyPair : validRSAKeyPair 5 11 ⟨55, 27⟩ ⟨55, 3⟩ :=
  ⟨by norm_num, by norm_num, by decide, rfl, rfl, rfl⟩

/-- Second demonstration key pair with modulus 21 = 3 * 7 and exponents 5
and 5, unrelated to the first. -/
theorem demoKeyPair2 : validRSAKeyPair 3 7 ⟨21, 5⟩ ⟨21, 5⟩ :=
  ⟨by norm_num, by norm_num, by decide, rfl, rfl, rfl⟩

/-- C1: for every valid RSA key pair and every data buffer, including the
empty buffer, verifying with the public key the signature produced by
signing the data with the private key under the shared algorithm identifier
returns true. -/
theorem C1_sign_then_verify (hash : List Nat → Nat) (p q : Nat)
    (priv : RSAPrivateKey) (pub : RSAPublicKey)
    (hkp : validRSAKeyPair p q priv pub) (data : List Nat)
    (hh : hash data < pub.n) :
    rsaVerify hash data (rsaSign hash data priv) pub = true :=
  rsaSign_verifies hash p q priv pub hkp data hh

/-- Witness for C1 on the demonstration key pair and a concrete buffer. -/
theorem C1_sign_then_verify_witness :
    validRSAKeyPair 5 11 ⟨55, 27⟩ ⟨55, 3⟩ ∧
      hashDemo [104, 105] < (⟨55, 3⟩ : RSAPublicKey).n ∧
        rsaVerify hashDemo [104, 105]
          (rsaSign hashDemo [104, 105] ⟨55, 27⟩) ⟨55, 3⟩ = true :=
  ⟨demoKeyPair, by decide,
    C1_sign_then_verify hashDemo 5 11 ⟨55, 27⟩ ⟨55, 3⟩ demoKeyPair
      [104, 105] (by decide)⟩

/-- C3: decoding the encoding of any byte sequence gives back the sequence:
the artifact codec round trip. -/
theorem C3_artifact_roundtrip (s : List Nat) (hs : ∀ b ∈ s, b < 256) :
    decodeB64 (encodeB64 s) = some s :=
  decodeB64_encodeB64 s hs

/-- Witness for C3 on a concrete byte sequence exercising all three padding
shapes through its length. -/
theorem C3_artifact_roundtrip_witness :
    (∀ b ∈ [0, 255, 7, 42], b < 256) ∧
      decodeB64 (encodeB64 [0, 255, 7, 42]) = some [0, 255, 7, 42] :=
  ⟨by decide, C3_artifact_roundtrip [0, 255, 7, 42] (by decide)⟩

/-- C5: for every signature text, including malformed, truncated or garbage
bytes, the verify operation with parseable key material completes with a
boolean verdict; no input reaches the key-parse error and no unhandled
outcome exists. -/
theorem C5_verify_no_fault (hash : List Nat → Nat) (data keyBytes : List Nat)
    (parsePub : List Nat → Option RSAPublicKey) (pub : RSAPublicKey)
    (h : parsePub keyBytes = some pub) (sigText : List Nat) :
    verifierVerifyOutcome hash data sigText keyBytes parsePub
      = VerifyOutcome.ok (verifierVerify hash data sigText pub) := by
  simp [verifierVerifyOutcome, h]

/-- Witness for C5 on garbage signature bytes that are not valid base64. -/
theorem C5_verify_no_fault_witness :
    verifierVerifyOutcome hashDemo [104] [0, 1, 2] [9] parsePubDemo
      = VerifyOutcome.ok (verifierVerify hashDemo [104] [0, 1, 2] ⟨55, 3⟩) :=
  C5_verify_no_fault hashDemo [104] [9] parsePubDemo ⟨55, 3⟩ rfl [0, 1, 2]

/-- C10: signing is deterministic; two invocations on the same data buffer
and the same private key produce identical raw signatures. -/
theorem C10_sign_deterministic (hash : List Nat → Nat) (d1 d2 : List Nat)
    (k1 k2 : RSAPrivateKey) (hd : d1 = d2) (hk : k1 = k2) :
    rsaSign hash d1 k1 = rsaSign hash d2 k2 := by
  rw [hd, hk]

/-- Witness for C10 on concrete data and key. -/
theorem C10_sign_deterministic_witness :
    rsaSign hashDemo [104, 105] ⟨55, 27⟩ = rsaSign hashDemo [104, 105] ⟨55, 27⟩ :=
  C10_sign_deterministic hashDemo [104, 105] [104, 105] ⟨55, 27⟩ ⟨55, 27⟩ rfl rfl

/-- C4: the verify CLI invocation exits with status 0 exactly when all three
reads succeed, the public key parses, the artifact decodes, and the
verification returns true; every other outcome gives a non-zero status. -/
theorem C4_verify_exit_zero_iff (fs : String → Option (List Nat))
    (parsePub : List Nat → Option RSAPublicKey) (hash : List Nat → Nat)
    (dp sp kp : String) :
    verifyExitCode fs parsePub hash dp sp kp = 0 ↔
      ∃ data sigText keyBytes pub sigBytes,
        fs dp = some data ∧ fs sp = some sigText ∧ fs kp = some keyBytes ∧
          parsePub keyBytes = some pub ∧ decodeB64 sigText = some sigBytes ∧
            rsaVerify hash data (bytesToNatBE sigBytes) pub = true := by
  constructor
  · intro h
    cases h1 : fs dp with
    | none => simp [verifyExitCode, h1] at h
    | some data =>
      cases h2 : fs sp with
      | none => simp [verifyExitCode, h1, h2] at h
      | some sigText =>
        cases h3 : fs kp with
        | none => simp [verifyExitCode, h1, h2, h3] at h
        | some keyBytes =>
          cases h4 : parsePub keyBytes with
          | none => simp [verifyExitCode, h1, h2, h3, h4] at h
          | some pub =>
            cases h5 : decodeB64 sigText with
            | none =>
              simp [verifyExitCode, h1, h2, h3, h4, verifierVerify, h5] at h
            | some sigBytes =>
              cases h6 : rsaVerify hash data (bytesToNatBE sigBytes) pub with
              | false =>
                simp [verifyExitCode, h1, h2, h3, h4, verifierVerify, h5, h6] at h
              | true =>
                exact ⟨data, sigText, keyBytes, pub, sigBytes,
                  rfl, rfl, rfl, h4, h5, h6⟩
  · rintro ⟨data, sigText, keyBytes, pub, sigBytes, h1, h2, h3, h4, h5, h6⟩
    simp [verifyExitCode, h1, h2, h3, h4, verifierVerify, h5, h6]

/-- C2: verification returns true exactly on the signature produced with the
private key paired with the public key over the bytes of data; flipping any
single bit of the signature, or of the data when the digests differ, makes
verification return false, and the public key of an unrelated key pair whose
own signature differs rejects the signature. -/
theorem C2_verify_characterization (hash : List Nat → Nat) (p q : Nat)
    (priv : RSAPrivateKey) (pub : RSAPublicKey)
    (hkp : validRSAKeyPair p q priv pub) (hp2 : p ≠ 2) (hq2 : q ≠ 2)
    (data : List Nat) (hh : hash data < pub.n) :
    (∀ s, s < pub.n →
        (rsaVerify hash data s pub = true ↔ s = rsaSign hash data priv)) ∧
      (∀ s j, (s = rsaSign hash data priv + 2 ^ j ∨
            s + 2 ^ j = rsaSign hash data priv) →
          rsaVerify hash data s pub = false) ∧
        (∀ data2, hash data2 < pub.n → hash data2 ≠ hash data →
            rsaVerify hash data2 (rsaSign hash data priv) pub = false) ∧
          (∀ p2 q2 priv2 pub2, validRSAKeyPair p2 q2 priv2 pub2 →
              rsaSign hash data priv < pub2.n → hash data < pub2.n →
                rsaSign hash data priv ≠ rsaSign hash data priv2 →
                  rsaVerify hash data (rsaSign hash data priv) pub2 = false) := by
  refine ⟨fun s hs => rsaVerify_true_iff hash p q priv pub hkp data hh s hs,
    ?_, ?_, ?_⟩
  · intro s j hflip
    cases hv : rsaVerify hash data s pub with
    | false => rfl
    | true =>
      exfalso
      have hmod := rsaVerify_true_modEq hash p q priv pub hkp data hh s hv
      have hodd : Odd pub.n := by
        obtain ⟨hp, hq, hpq, hn, hnn, he⟩ := hkp
        rw [hnn, hn]
        exact (hp.odd_of_ne_two hp2).mul (hq.odd_of_ne_two hq2)
      have hgt : 1 < pub.n := by
        obtain ⟨hp, hq, hpq, hn, hnn, he⟩ := hkp
        rw [hnn, hn]
        calc 1 < 2 * 2 := by norm_num
          _ ≤ p * q := Nat.mul_le_mul hp.two_le hq.two_le
      have hdvd : pub.n ∣ 2 ^ j := by
        rcases hflip with hf | hf
        · rw [hf] at hmod
          have h0 : rsaSign hash data priv + 2 ^ j
              ≡ rsaSign hash data priv + 0 [MOD pub.n] := by
            simpa using hmod
          exact Nat.modEq_zero_iff_dvd.mp (Nat.ModEq.add_left_cancel' _ h0)
        · rw [← hf] at hmod
          have h0 : s + 0 ≡ s + 2 ^ j [MOD pub.n] := by
            simpa using hmod
          exact Nat.modEq_zero_iff_dvd.mp (Nat.ModEq.add_left_cancel' _ h0).symm
      exact odd_not_dvd_two_pow pub.n j hodd hgt hdvd
  · intro data2 hh2 hne
    have hv := rsaSign_verifies hash p q priv pub hkp data hh
    have hv' : rsaSign hash data priv ^ pub.e % pub.n = hash data := by
      simpa [rsaVerify] using hv
    simp only [rsaVerify, decide_eq_false_iff_not]
    rw [hv']
    exact fun hc => hne hc.symm
  · intro p2 q2 priv2 pub2 hkp2 hlt hh2 hne
    cases hv : rsaVerify hash data (rsaSign hash data priv) pub2 with
    | false => rfl
    | true =>
      exact absurd
        ((rsaVerify_true_iff hash p2 q2 priv2 pub2 hkp2 data hh2 _ hlt).mp hv)
        hne

/-- Witness for C2: a one-bit flip of the demonstration signature (the
lowest bit) makes verification return false. -/
theorem C2_verify_characterization_witness :
    rsaVerify hashDemo [104, 105] 55 ⟨55, 3⟩ = false :=
  (C2_verify_characterization hashDemo 5 11 ⟨55, 27⟩ ⟨55, 3⟩ demoKeyPair
      (by decide) (by decide) [104, 105] (by decide)).2.1 55 0
    (Or.inl (by decide))

/-- C6: every creation of the signing primitive and every creation of the
verifying primitive, whatever the file system contents, the key material and
the paths, passes the same fixed algorithm identifier, the constant
RSA-SHA256. -/
theorem C6_algorithm_identifier_fixed :
    (∀ fs parsePriv hash dp kp sp a,
        Event.createSign a ∈ signRun fs parsePriv hash dp kp sp →
          a = SIGNATURE_ALGORITHM) ∧
      (∀ fs parsePub hash dp sp kp a,
          Event.createVerify a ∈ verifyRun fs parsePub hash dp sp kp →
            a = SIGNATURE_ALGORITHM) ∧
        SIGNATURE_ALGORITHM = "RSA-SHA256" := by
  refine ⟨?_, ?_, rfl⟩
  · intro fs parsePriv hash dp kp sp a h
    cases h1 : fs dp with
    | none => simp [signRun, h1] at h
    | some data =>
      cases h2 : fs kp with
      | none => simp [signRun, h1, h2] at h
      | some privateKey =>
        cases h3 : parsePriv privateKey with
        | none => simpa [signRun, h1, h2, h3] using h
        | some priv => simpa [signRun, h1, h2, h3] using h
  · intro fs parsePub hash dp sp kp a h
    cases h1 : fs dp with
    | none => simp [verifyRun, h1] at h
    | some data =>
      cases h2 : fs sp with
      | none => simp [verifyRun, h1, h2] at h
      | some sigText =>
        cases h3 : fs kp with
        | none => simp [verifyRun, h1, h2, h3] at h
        | some keyBytes =>
          cases h4 : parsePub keyBytes with
          | none => simpa [verifyRun, h1, h2, h3, h4] using h
          | some pub => simpa [verifyRun, h1, h2, h3, h4] using h

/-- Witness for C6 on a run whose trace contains the creation event. -/
theorem C6_algorithm_identifier_fixed_witness :
    "RSA-SHA256" = SIGNATURE_ALGORITHM :=
  C6_algorithm_identifier_fixed.1 fsDemo parsePrivDemo hashDemo "d" "k" "s"
    "RSA-SHA256" (by decide)

/-- C7: the only write performed by the sign path targets the signature
output path and its contents are exactly the base64 text of the raw
signature, with no framing, newline or metadata. -/
theorem C7_artifact_exact (fs : String → Option (List Nat))
    (parsePriv : List Nat → Option RSAPrivateKey) (hash : List Nat → Nat)
    (dp kp sp : String) (data privateKey : List Nat) (priv : RSAPrivateKey)
    (h1 : fs dp = some data) (h2 : fs kp = some privateKey)
    (h3 : parsePriv privateKey = some priv) :
    ∀ pth c, Event.writeFile pth c ∈ signRun fs parsePriv hash dp kp sp →
      pth = sp ∧
        c = encodeB64 (rawSignatureBytes priv (rsaSign hash data priv)) := by
  intro pth c h
  simpa [signRun, h1, h2, h3] using h

/-- Witness for C7: the artifact written by the demonstration run is the
four base64 characters of the one raw signature byte and nothing else. -/
theorem C7_artifact_exact_witness :
    "s" = "s" ∧ [78, 103, 61, 61]
      = encodeB64 (rawSignatureBytes ⟨55, 27⟩ (rsaSign hashDemo [104, 105] ⟨55, 27⟩)) :=
  C7_artifact_exact fsDemo parsePrivDemo hashDemo "d" "k" "s" [104, 105] [7]
    ⟨55, 27⟩ rfl rfl rfl "s" [78, 103, 61, 61] (by decide)

/-- C8 evaluation: a sign run whose reads and signing succeed but whose
artifact write fails still exits with status 0, because the fs.writeFile
callback at signature.js lines 93-95 ignores its error argument. -/
theorem C8_sign_exit_zero_despite_write_failure :
    signExitCode fsDemo (fun _ _ => false) parsePrivDemo hashDemo "d" "k" "s" = 0 := by
  decide

/-- C9: on every execution whose trace reaches the signing computation, the
data file read precedes the private key file read, and both precede the
creation of the signing primitive. -/
theorem C9_sign_causal_order (fs : String → Option (List Nat))
    (parsePriv : List Nat → Option RSAPrivateKey) (hash : List Nat → Nat)
    (dp kp sp : String)
    (h : Event.createSign SIGNATURE_ALGORITHM ∈ signRun fs parsePriv hash dp kp sp) :
    occursBefore (Event.readFile dp) (Event.readFile kp)
        (signRun fs parsePriv hash dp kp sp) ∧
      occursBefore (Event.readFile kp) (Event.createSign SIGNATURE_ALGORITHM)
        (signRun fs parsePriv hash dp kp sp) := by
  cases h1 : fs dp with
  | none => simp [signRun, h1] at h
  | some data =>
    cases h2 : fs kp with
    | none => simp [signRun, h1, h2] at h
    | some privateKey =>
      cases h3 : parsePriv privateKey with
      | none =>
        refine ⟨⟨[], [], [Event.createSign SIGNATURE_ALGORITHM, Event.exit 1], ?_⟩,
          ⟨[Event.readFile dp], [], [Event.exit 1], ?_⟩⟩ <;>
          simp [signRun, h1, h2, h3]
      | some priv =>
        refine ⟨⟨[], [], [Event.createSign SIGNATURE_ALGORITHM,
            Event.writeFile sp (encodeB64 (rawSignatureBytes priv (rsaSign hash data priv))),
            Event.exit 0], ?_⟩,
          ⟨[Event.readFile dp], [],
            [Event.writeFile sp (encodeB64 (rawSignatureBytes priv (rsaSign hash data priv))),
              Event.exit 0], ?_⟩⟩ <;>
          simp [signRun, h1, h2, h3]

/-- Witness for C9 on the demonstration run. -/
theorem C9_sign_causal_order_witness :
    occursBefore (Event.readFile "d") (Event.readFile "k")
        (signRun fsDemo parsePrivDemo hashDemo "d" "k" "s") ∧
      occursBefore (Event.readFile "k") (Event.createSign SIGNATURE_ALGORITHM)
        (signRun fsDemo parsePrivDemo hashDemo "d" "k" "s") :=
  C9_sign_causal_order fsDemo parsePrivDemo hashDemo "d" "k" "s" (by decide)

end CryptoInterop
